import Mathlib

/-!
# Verification of the LocalLab model lifecycle and generation controller

A shallow embedding of `locallab/model_manager.py` (`class ModelManager`):
the session state, the lifecycle operations (`load_model`, `unload_model`,
`check_model_timeout`, `get_model_info`, `is_model_loaded`), the buffered
`generate` pipeline (cache, parameter resolution, OOM recovery) and the
streamed pipeline (`_stream_generate`, `async_stream_generate`).

Modelling conventions:
* opaque Python objects (loaded model / tokenizer instances) are `Nat`
  handles supplied by the caller as "fresh" values;
* effectful Python calls that may raise are parametrized by an outcome
  argument (`LoadOutcome`, `DecodeOutcome`, per-step stream oracles);
  exceptions are `Except PyErr`;
* numeric generation parameters are exact rationals / integers: the claims
  under check only use ordering, equality and `min`, which the rationals
  share with Python floats at these magnitudes;
* `time.time()` is a `Nat` argument `now`; config constants imported from
  `locallab/config.py` (absent from the sources) are explicit arguments.
-/

/-! ## String helpers (Python `in`, `str.split`, `str.isspace`) -/

/-- Does `hay` start with `needle` (char lists)? -/
def leadsList : List Char → List Char → Bool
  | [], _ => true
  | _ :: _, [] => false
  | a :: as, b :: bs => a == b && leadsList as bs

/-- Python `needle in hay` on strings, over char lists. -/
def hasSub (needle : List Char) : List Char → Bool
  | [] => leadsList needle []
  | c :: t => leadsList needle (c :: t) || hasSub needle t

/-- Python `needle in hay` for `String`. -/
def strContains (hay needle : String) : Bool :=
  hasSub needle.data hay.data

/-- Concatenation of a list of strings (no separator). -/
def joinAll : List String → String
  | [] => ""
  | s :: rest => s ++ joinAll rest

/-- Python `s.split(sep)[0]`: the part of `s` before the first occurrence
of `sep` (the whole of `s` when `sep` does not occur). -/
def splitHeadOn (s sep : String) : String :=
  (s.splitOn sep).headD s

/-- Python `not s or s.isspace()`: `s` is empty or all-whitespace. -/
def pyBlank (s : String) : Bool :=
  s.data.all Char.isWhitespace

/-- Python `f"{x}"` for an `Optional[str]`: `None` prints as `"None"`. -/
def pyStrOptStr : Option String → String
  | none => "None"
  | some s => s

/-! ## Session state (`ModelManager.__init__`, lines 45-51)

`modelConfigSet` / `deviceSet` record whether the Python instance
attributes `model_config` / `device` exist: `__init__` never assigns
them (only `load_custom_model` assigns `model_config`; `device` is
assigned nowhere in the class), and reading a missing attribute raises
`AttributeError`. -/

structure MMState where
  model : Option Nat
  tokenizer : Option Nat
  currentModel : Option String
  loading : Bool
  lastUse : Nat
  responseCache : List (String × String)
  modelConfigSet : Bool
  deviceSet : Bool
deriving Repr, DecidableEq

/-- The state built by `ModelManager.__init__` at time `t0`. -/
def initState (t0 : Nat) : MMState :=
  { model := none, tokenizer := none, currentModel := none,
    loading := false, lastUse := t0, responseCache := [],
    modelConfigSet := false, deviceSet := false }

/-! ## Errors -/

deriving instance DecidableEq for Except

/-- Python exceptions the embedded operations can surface. -/
inductive PyErr where
  /-- `RuntimeError("Another model is currently loading")`, line 288. -/
  | loadBusy : PyErr
  /-- an exception raised by `from_pretrained` during a load. -/
  | loadErr : PyErr
  /-- `RuntimeError` whose text contains `"CUDA out of memory"`. -/
  | cudaOOM : PyErr
  /-- any other exception raised by `model.generate`. -/
  | runtimeOther : PyErr
  /-- reading an instance attribute that was never assigned. -/
  | attrErr (name : String) : PyErr
  /-- using a local variable that was never bound. -/
  | nameErr (name : String) : PyErr
  /-- `HTTPException(status_code=500, detail=msg)`. -/
  | http500 (msg : String) : PyErr
deriving Repr, DecidableEq

/-! ## `unload_model` (lines 975-998) -/

/-- `ModelManager.unload_model`: clears model, tokenizer and
current_model when a model is present (plus cache emptying / gc, which
have no session-state footprint); a no-op otherwise. -/
def unload_model (st : MMState) : MMState :=
  if st.model.isSome then
    { st with model := none, tokenizer := none, currentModel := none }
  else st

/-! ## `check_model_timeout` (lines 317-330) -/

/-- `ModelManager.check_model_timeout`: when `UNLOAD_UNUSED_MODELS` is on,
a model is present and `time.time() - self.last_used > MODEL_TIMEOUT`,
the code does `del self.model; self.model = None; self.current_model =
None` — it does not touch `self.tokenizer`. -/
def check_model_timeout (st : MMState) (now : Nat)
    (unloadUnusedModels : Bool) (modelTimeout : Nat) : MMState :=
  if !unloadUnusedModels || st.model.isNone then st
  else if now - st.lastUse > modelTimeout then
    { st with model := none, currentModel := none }
  else st

/-! ## `load_model` (lines 285-315) and its helper (lines 250-283) -/

/-- Outcome of the two `from_pretrained` calls inside
`_load_model_with_optimizations`. -/
inductive LoadOutcome where
  /-- `AutoTokenizer.from_pretrained` raises. -/
  | tokFail : LoadOutcome
  /-- tokenizer loads, `AutoModelForCausalLM.from_pretrained` raises. -/
  | modelFail : LoadOutcome
  /-- both load. -/
  | ok : LoadOutcome
deriving Repr, DecidableEq

/-- `ModelManager._load_model_with_optimizations`: assigns
`self.tokenizer`, then `self.model`, then pipes the model through
`_apply_optimizations` (identity on the handle: every optimization is
fail-soft and returns the model) and `eval()`. An exception propagates
after the assignments already made. Returns the model handle. -/
def _load_model_with_optimizations (st : MMState) (o : LoadOutcome)
    (freshTok freshModel : Nat) : MMState × Except PyErr Nat :=
  match o with
  | .tokFail => (st, .error .loadErr)
  | .modelFail => ({ st with tokenizer := some freshTok }, .error .loadErr)
  | .ok => ({ st with tokenizer := some freshTok, model := some freshModel },
            .ok freshModel)

/-- Observable session events of one `load_model` call, in order. -/
inductive LoadEvent where
  /-- `self.unload_model()` ran on a previously loaded model. -/
  | unloadedPrev (mid : Option String) : LoadEvent
  /-- `_load_model_with_optimizations(mid)` was invoked. -/
  | attempted (mid : String) : LoadEvent
deriving Repr, DecidableEq

/-- `ModelManager.load_model`: raises `RuntimeError` at once if
`self._loading` (before any mutation); otherwise sets the loading flag,
unloads any current model, performs the single underlying load, and on
success sets `self.current_model`. The `finally` clause resets
`self._loading` on every path of the `try`. There is no fallback logic:
any exception from the helper is logged and re-raised. -/
def load_model (st : MMState) (mid : String) (o : LoadOutcome)
    (freshTok freshModel : Nat) :
    MMState × Except PyErr Unit × List LoadEvent :=
  if st.loading then (st, .error .loadBusy, [])
  else
    let st1 : MMState := { st with loading := true }
    let step : MMState × List LoadEvent :=
      if st1.model.isSome then
        (unload_model st1, [LoadEvent.unloadedPrev st1.currentModel])
      else (st1, [])
    match _load_model_with_optimizations step.1 o freshTok freshModel with
    | (st2, .error e) =>
        ({ st2 with loading := false }, .error e,
         step.2 ++ [LoadEvent.attempted mid])
    | (st2, .ok m) =>
        ({ st2 with model := some m, currentModel := some mid,
                    loading := false }, .ok (),
         step.2 ++ [LoadEvent.attempted mid])

/-- `ModelManager.is_model_loaded` (lines 964-973). -/
def is_model_loaded (st : MMState) (mid : String) : Bool :=
  st.model.isSome && (st.currentModel == some mid)

/-! ## `get_model_info` (lines 790-855) -/

/-- What `get_model_info` returns when it returns. The snapshot carries
the session-derived fields; `parameters`/`device` come from the
(oracle-supplied) torch probes. The remaining dict entries (ram/vram
strings, quantization and optimization booleans read from environment
variables) are independent of the session state and elided. -/
inductive InfoView where
  | noModelLoaded : InfoView
  | info (model_id : String) (parameters : Nat) (device : String) : InfoView
deriving Repr, DecidableEq

/-- `ModelManager.get_model_info`: returns the `"No model loaded"`
marker when `current_model` is unset; otherwise evaluates
`self.model_config` (line 801: `AttributeError` when the attribute was
never assigned), binds `num_parameters` only under `if self.model:`
(lines 796-799; using it on line 821 with no model is a `NameError`),
and reads `self.device` (line 823: `AttributeError`, the class never
assigns it). -/
def get_model_info (st : MMState) (numParameters : Nat) (device : String) :
    Except PyErr InfoView :=
  match st.currentModel with
  | none => .ok .noModelLoaded
  | some mid =>
      if !st.modelConfigSet then .error (.attrErr "model_config")
      else if st.model.isNone then .error (.nameErr "num_parameters")
      else if !st.deviceSet then .error (.attrErr "device")
      else .ok (.info mid numParameters device)

/-! ## Generation parameters (`generate`, lines 332-417) -/

/-- A caller-supplied value for an int-typed parameter. `truthy` is the
Python truthiness of the original value (used by `any([...])` and the
`if not x` default-clamping guards); `coer` is the result of `int(x)`
(`none` models `ValueError`/`TypeError`). -/
structure SuppliedInt where
  truthy : Bool
  coer : Option Int
deriving Repr, DecidableEq

/-- A caller-supplied value for a float-typed parameter; `coer` is the
result of `float(x)`, as an exact rational. -/
structure SuppliedRat where
  truthy : Bool
  coer : Option Rat
deriving Repr, DecidableEq

/-- The keyword arguments of one `generate` call; `none` is a parameter
the caller did not pass (Python `None` default). -/
structure GenArgs where
  stream : Bool
  max_length : Option SuppliedInt
  max_new_tokens : Option SuppliedInt
  temperature : Option SuppliedRat
  top_p : Option SuppliedRat
  top_k : Option SuppliedInt
  repetition_penalty : Option SuppliedRat
deriving Repr, DecidableEq

/-- A `generate` call with no keyword arguments. -/
def noArgs : GenArgs :=
  { stream := false, max_length := none, max_new_tokens := none,
    temperature := none, top_p := none, top_k := none,
    repetition_penalty := none }

/-- Truthiness of an optional int argument. -/
def truthyOptI : Option SuppliedInt → Bool
  | none => false
  | some s => s.truthy

/-- Truthiness of an optional float argument. -/
def truthyOptR : Option SuppliedRat → Bool
  | none => false
  | some s => s.truthy

/-- The per-model entry of `MODEL_REGISTRY` restricted to generation
parameters: each key may be present or absent. -/
structure RegistryEntry where
  max_length : Option Int
  temperature : Option Rat
  top_p : Option Rat
  top_k : Option Int
  repetition_penalty : Option Rat
deriving Repr, DecidableEq

/-- The global configuration defaults `DEFAULT_MAX_LENGTH`,
`DEFAULT_TEMPERATURE`, `DEFAULT_TOP_P`. -/
structure GlobalDefaults where
  defaultMaxLength : Int
  defaultTemperature : Rat
  defaultTopP : Rat
deriving Repr, DecidableEq

/-- The mapping `generate` starts from (`gen_params`): `generate` reads
`gen_params["max_length"]`, `["temperature"]` and `["top_p"]`
unconditionally (lines 444-446), so these three keys are always
present; `top_k` and `repetition_penalty` are guarded by membership
tests (lines 454-457). -/
structure GenParams where
  max_length : Int
  temperature : Rat
  top_p : Rat
  top_k : Option Int
  repetition_penalty : Option Rat
deriving Repr, DecidableEq

/-- Modelled from the spec: `get_model_generation_params` lives in
`locallab/config.py`, which is absent from the sources; per the spec
("Parameters not supplied fall back to model-specific registry
defaults, then to global defaults", §3; global "default max
length/temperature/top-p", §6) it resolves each of the three global
parameters from the model's registry entry with the global default as
fallback, and passes through the registry-only keys. -/
def get_model_generation_params (e : RegistryEntry) (g : GlobalDefaults) :
    GenParams :=
  { max_length := e.max_length.getD g.defaultMaxLength,
    temperature := e.temperature.getD g.defaultTemperature,
    top_p := e.top_p.getD g.defaultTopP,
    top_k := e.top_k,
    repetition_penalty := e.repetition_penalty }

/-- One `if X is not None: try: gen_params[k] = int(X) except
(ValueError, TypeError): pass` overlay step for an int-valued key. -/
def overrideInt (cur : Int) (arg : Option SuppliedInt) : Int :=
  match arg with
  | some v => match v.coer with
              | some i => i
              | none => cur
  | none => cur

/-- The float-valued overlay step (`float(X)`). -/
def overrideRat (cur : Rat) (arg : Option SuppliedRat) : Rat :=
  match arg with
  | some v => match v.coer with
              | some q => q
              | none => cur
  | none => cur

/-- The overlay step for an int key that may be absent from
`gen_params` (`top_k`). -/
def overrideOptInt (cur : Option Int) (arg : Option SuppliedInt) :
    Option Int :=
  match arg with
  | some v => match v.coer with
              | some i => some i
              | none => cur
  | none => cur

/-- The overlay step for a float key that may be absent from
`gen_params` (`repetition_penalty`). -/
def overrideOptRat (cur : Option Rat) (arg : Option SuppliedRat) :
    Option Rat :=
  match arg with
  | some v => match v.coer with
              | some q => some q
              | none => cur
  | none => cur

/-- Lines 374-417 of `generate`: clamp the defaults when the caller
supplied nothing truthy (`max_length` capped at 512 when neither
max_length nor max_new_tokens is truthy, `temperature` capped at 0.7,
`top_k` set to 40), map a passed `max_new_tokens` onto the `max_length`
local (line 388, shadowing any passed `max_length`), then overlay each
supplied parameter through `int()`/`float()`, keeping the previous
dict entry when coercion raises. The Python statements update distinct
dict keys in sequence, so they are rendered as one record assembled
from independent per-key steps. -/
def resolveGenParams (gp0 : GenParams) (a : GenArgs) : GenParams :=
  let clampedML := if !truthyOptI a.max_length && !truthyOptI a.max_new_tokens
                   then min gp0.max_length 512 else gp0.max_length
  let clampedT := if !truthyOptR a.temperature
                  then min gp0.temperature (7/10) else gp0.temperature
  let defaultedK := if !truthyOptI a.top_k then some 40 else gp0.top_k
  let mlArg := if a.max_new_tokens.isSome then a.max_new_tokens
               else a.max_length
  { max_length := overrideInt clampedML mlArg,
    temperature := overrideRat clampedT a.temperature,
    top_p := overrideRat gp0.top_p a.top_p,
    top_k := overrideOptInt defaultedK a.top_k,
    repetition_penalty :=
      overrideOptRat gp0.repetition_penalty a.repetition_penalty }

/-! ## Buffered decode with OOM recovery (`generate`, lines 440-486) -/

/-- Outcome of one `self.model.generate(**generate_params)` call. -/
inductive DecodeOutcome where
  | ok : DecodeOutcome
  /-- `RuntimeError` containing `"CUDA out of memory"`. -/
  | oom : DecodeOutcome
  /-- any other exception. -/
  | err : DecodeOutcome
deriving Repr, DecidableEq

/-- Record of the decode section: the `max_new_tokens` budget of each
attempted `model.generate` call, whether the OOM handler cleared the
accelerator cache, and the surfaced result. -/
structure DecodeRun where
  attempts : List Int
  cacheCleared : Bool
  result : Except PyErr Unit
deriving Repr, DecidableEq

/-- Lines 440-486: first `model.generate` with `max_new_tokens =
gen_params["max_length"]`. On a CUDA-OOM `RuntimeError`:
`torch.cuda.empty_cache()`, then `generate_params["max_new_tokens"] =
min(generate_params.get("max_new_tokens", 512), 256)` and one retry,
whose own exception propagates. A non-OOM exception re-raises at once. -/
def decodeWithOOMRetry (budget : Int) (first retry : DecodeOutcome) :
    DecodeRun :=
  match first with
  | .ok => ⟨[budget], false, .ok ()⟩
  | .err => ⟨[budget], false, .error .runtimeOther⟩
  | .oom =>
      let b2 := min budget 256
      match retry with
      | .ok => ⟨[budget, b2], true, .ok ()⟩
      | .oom => ⟨[budget, b2], true, .error .cudaOOM⟩
      | .err => ⟨[budget, b2], true, .error .runtimeOther⟩

/-! ## The buffered `generate` pipeline (lines 332-508) -/

/-- Line 360: the fixed prompt template. -/
def formatPrompt (instructions prompt : String) : String :=
  "<|system|>" ++ instructions ++ "</|system|>\n<|user|>" ++ prompt ++
    "</|user|>\n<|assistant|>"

/-- Line 364: the cache is considered only when `stream` is false and
`any([max_length, max_new_tokens, temperature, top_p, top_k,
repetition_penalty])` is false — Python truthiness, so explicit zero
values count as "not supplied". -/
def cacheEligible (a : GenArgs) : Bool :=
  !a.stream &&
    !(truthyOptI a.max_length || truthyOptI a.max_new_tokens ||
      truthyOptR a.temperature || truthyOptR a.top_p ||
      truthyOptI a.top_k || truthyOptR a.repetition_penalty)

/-- Line 365: `f"{self.current_model}:{hash(formatted_prompt)}"`. -/
def cacheKey (mid : String) (h : Int) : String :=
  mid ++ ":" ++ toString h

/-- Lines 488-492: decode the new tokens (the decoded text is the
oracle `raw`), then strip echoed instructions and prompt and
whitespace. -/
def cleanResponse (raw instructions prompt : String) : String :=
  ((raw.replace instructions "").replace prompt "").trim

/-- Line 429 returns the `async_stream_generate` generator object
rather than a string; the embedding marks that branch with a sentinel. -/
def streamSentinel : String := "<async-stream-generator>"

/-- Lines 345-349 of `generate`: the reaper check followed by the lazy
bootstrap load of `DEFAULT_MODEL` when model or tokenizer is missing.
A load failure propagates raw (the `try` block only starts at line
353). -/
def reapAndLoadPhase (st : MMState) (now : Nat) (unloadUnused : Bool)
    (modelTimeout : Nat) (defaultModel : String) (loadO : LoadOutcome)
    (freshTok freshModel : Nat) : MMState × Except PyErr Unit :=
  let st1 := check_model_timeout st now unloadUnused modelTimeout
  if st1.model.isNone || st1.tokenizer.isNone then
    let r := load_model st1 defaultModel loadO freshTok freshModel
    (r.1, r.2.1)
  else (st1, .ok ())

/-- The visible outcome of one buffered `generate` call. -/
structure GenResult where
  state : MMState
  result : Except PyErr String
  decodeAttempts : List Int
deriving Repr, DecidableEq

/-- `ModelManager.generate` for the buffered path (the `stream=True`
branch returns the generator object, marked by `streamSentinel`):
reaper check, lazy load, `last_used` update, prompt formatting, cache
lookup (guarded by `cacheEligible`), parameter resolution, decode with
OOM recovery (all errors of the `try` surface as `HTTPException` 500),
response cleanup, cache store with batched FIFO eviction (lines
494-501: over 100 entries drops the 10 oldest). -/
def generate (st : MMState) (now : Nat) (unloadUnused : Bool)
    (modelTimeout : Nat) (defaultModel : String) (loadO : LoadOutcome)
    (freshTok freshModel : Nat) (instructions prompt : String)
    (pyHash : String → Int) (gp0 : GenParams) (a : GenArgs)
    (first retry : DecodeOutcome) (raw : String) : GenResult :=
  match reapAndLoadPhase st now unloadUnused modelTimeout defaultModel
      loadO freshTok freshModel with
  | (st1, .error e) => ⟨st1, .error e, []⟩
  | (st1, .ok _) =>
    let st2 := { st1 with lastUse := now }
    let fp := formatPrompt instructions prompt
    let key? : Option String :=
      if cacheEligible a
      then some (cacheKey (pyStrOptStr st2.currentModel) (pyHash fp))
      else none
    let hit : Option String :=
      match key? with
      | some k => st2.responseCache.lookup k
      | none => none
    match hit with
    | some v => ⟨st2, .ok v, []⟩
    | none =>
      if a.stream then ⟨st2, .ok streamSentinel, []⟩
      else
        let gp := resolveGenParams gp0 a
        let run := decodeWithOOMRetry gp.max_length first retry
        match run.result with
        | .error _ => ⟨st2, .error (.http500 "Generation failed"), run.attempts⟩
        | .ok _ =>
          let response := cleanResponse raw instructions prompt
          let stF := match key? with
            | some k =>
              let c := st2.responseCache ++ [(k, response)]
              let c := if c.length > 100 then c.drop 10 else c
              { st2 with responseCache := c }
            | none => st2
          ⟨stF, .ok response, run.attempts⟩

/-! ## Streamed generation (`_stream_generate`, lines 511-680, and
`async_stream_generate`, lines 682-788) -/

/-- The stop-marker list (line 558 and line 751 use the same list). -/
def stopSequences : List String :=
  ["</s>", "<|endoftext|>", "<|im_end|>", "<|assistant|>"]

/-- Does any configured stop marker occur inside `s`? -/
def stopHitStr (s : String) : Bool :=
  stopSequences.any (fun m => strContains s m)

/-- Lines 608-619: when more than 50 characters were generated, look at
the trailing 50 characters and report a repeat if, for some pattern
length in `range(10, 20)` smaller than half the window, the trailing
pattern occurs again earlier in the window. -/
def repetitionDetected (g : String) : Bool :=
  let l := g.data
  if l.length > 50 then
    let last50 := l.drop (l.length - 50)
    (List.range' 10 10).any fun pl =>
      decide (pl < last50.length / 2) &&
        hasSub (last50.drop (last50.length - pl))
          (last50.take (last50.length - pl))
  else false

/-- Oracle for one iteration of the `_stream_generate` loop: whether
the step's `model.generate` raised CUDA-OOM (recovered in-loop with a
one-token retry), and the text decoded from the new tokens of the
(possibly retried) call. -/
structure StreamStep where
  oom : Bool
  text : String
deriving Repr, DecidableEq

/-- The loop body of `_stream_generate` (lines 561-675), one list entry
per iteration of `for step in range(0, max_length, 2)`; `g` is
`generated_text`. The normal path breaks before yielding on blank text,
yields, and breaks after yielding when a stop marker or a repetition is
found in the accumulated text. The OOM path (lines 647-672) retries
with one token, breaks on blank text, and otherwise yields and
continues without any stop or repetition check. -/
def streamLoop : List StreamStep → String → List String
  | [], _ => []
  | s :: rest, g =>
    if s.oom then
      if pyBlank s.text then []
      else s.text :: streamLoop rest (g ++ s.text)
    else
      if pyBlank s.text then []
      else
        let g1 := g ++ s.text
        let stop := stopHitStr g1 || repetitionDetected g1
        s.text :: (if stop then [] else streamLoop rest g1)

/-- Number of loop iterations: `len(range(0, max_length, 2))` (the
range is computed once, before any OOM shrinks the step size). -/
def numStreamSteps (maxLength : Int) : Nat :=
  (maxLength.toNat + 1) / 2

/-- `ModelManager._stream_generate` with `gen_params` given: the list
of yielded chunks. -/
def _stream_generate (steps : List StreamStep) (maxLength : Int) :
    List String :=
  streamLoop (steps.take (numStreamSteps maxLength)) ""

/-- Lines 761-766 of `improved_stream_generator`: truncate the
accumulated text at the first stop marker in list order. Dead for the
yielded output: it is computed after the loop has already decided to
stop, and the untruncated `token_chunk` is what is yielded. -/
def truncAtFirstStop (s : String) : String :=
  match stopSequences.find? (fun m => strContains s m) with
  | some m => splitHeadOn s m
  | none => s

/-- The `improved_stream_generator` loop of `async_stream_generate`
(lines 749-784) over the chunks of the inner generator: accumulate the
chunk, test the stop markers, always yield the chunk itself, then break
on a stop hit, or on the safety cutoff `len(accumulated_text) >
gen_params.get("max_length", 512) * 4`. -/
def improvedStreamLoop (cap : Int) : List String → String → List String
  | [], _ => []
  | c :: rest, acc =>
    let acc1 := acc ++ c
    let stop := stopHitStr acc1
    let acc2 := if stop then truncAtFirstStop acc1 else acc1
    c :: (if stop then []
          else if (acc2.length : Int) > cap * 4 then []
          else improvedStreamLoop cap rest acc2)

/-- `ModelManager.async_stream_generate` on prepared inputs: the chunk
sequence the consumer sees — the wrapper loop run over the chunks of
`self._stream_generate(inputs, gen_params=gen_params)`, with the cap
taken from the same `gen_params["max_length"]`. -/
def async_stream_generate (steps : List StreamStep) (maxLength : Int) :
    List String :=
  improvedStreamLoop maxLength (_stream_generate steps maxLength) ""

/-- The accumulated text of the wrapper after consuming chunk `i`
(0-indexed) of the inner stream. -/
def accumText (inner : List String) (i : Nat) : String :=
  joinAll (inner.take (i + 1))

/-- Holds when an `Except`-valued generate result can only be the
freshly decoded (cleaned) response or the streaming sentinel — i.e.
no cached text. -/
def resultFreshOnly (r : Except PyErr String)
    (raw instructions prompt : String) : Prop :=
  match r with
  | .ok v => v = streamSentinel ∨ v = cleanResponse raw instructions prompt
  | .error _ => True

/-! ## Concrete evaluation fixtures -/

/-- A session holding model and tokenizer handles (both 1) for model
"m", as produced by a successful load. -/
def loadedSessionM : MMState :=
  { model := some 1, tokenizer := some 1, currentModel := some "m",
    loading := false, lastUse := 0, responseCache := [],
    modelConfigSet := false, deviceSet := false }

/-- A session with distinguishable model (1) and tokenizer (2) handles
for model "m". -/
def pairedSession : MMState :=
  { model := some 1, tokenizer := some 2, currentModel := some "m",
    loading := false, lastUse := 0, responseCache := [],
    modelConfigSet := false, deviceSet := false }

/-- `loadedSessionM` with one cached response for model "m" under the
key produced by the constant-zero prompt hash. -/
def seededCacheSession : MMState :=
  { loadedSessionM with responseCache := [("m:0", "CACHED")] }

/-- A baseline resolved `gen_params` mapping. -/
def gpBase : GenParams :=
  { max_length := 512, temperature := 7/10, top_p := 9/10,
    top_k := some 40, repetition_penalty := none }

/-- A session with a load in flight. -/
def busySession : MMState := { (initState 0) with loading := true }

/-- Arguments passing both an explicit max_length (5) and an explicit
max_new_tokens (77). -/
def argsBothLen : GenArgs :=
  { noArgs with
    max_length := some ⟨true, some 5⟩
    max_new_tokens := some ⟨true, some 77⟩ }

/-- Arguments passing only an explicit temperature 0.0 — Python-falsy
but present, and coercible to 0. -/
def argsZeroTemp : GenArgs :=
  { noArgs with temperature := some ⟨false, some 0⟩ }

/-- Arguments passing only a non-coercible (but truthy) temperature,
e.g. the string "abc". -/
def argsBadTemp : GenArgs :=
  { noArgs with temperature := some ⟨true, none⟩ }

/-! ## Helper lemmas -/

theorem digitChar_big (n : Nat) (h : 16 ≤ n) : Nat.digitChar n = '*' := by
  unfold Nat.digitChar
  repeat rw [if_neg (by omega)]

theorem digitChar_ne_colon (n : Nat) : Nat.digitChar n ≠ ':' := by
  rcases Nat.lt_or_ge n 16 with h | h
  · interval_cases n <;> decide
  · rw [digitChar_big n h]; decide

theorem toDigitsCore_mem (b : Nat) (f : Nat) :
    ∀ (n : Nat) (acc : List Char) (c : Char),
      c ∈ Nat.toDigitsCore b f n acc → c ∈ acc ∨ ∃ m, c = Nat.digitChar m := by
  induction f with
  | zero => intro n acc c h; exact Or.inl h
  | succ f ih =>
    intro n acc c h
    unfold Nat.toDigitsCore at h
    dsimp only [] at h
    split at h
    · rcases List.mem_cons.mp h with h1 | h2
      · exact Or.inr ⟨n % b, h1⟩
      · exact Or.inl h2
    · rcases ih (n / b) (Nat.digitChar (n % b) :: acc) c h with h1 | h2
      · rcases List.mem_cons.mp h1 with h3 | h4
        · exact Or.inr ⟨n % b, h3⟩
        · exact Or.inl h4
      · exact h2.elim (fun m hm => Or.inr ⟨m, hm⟩)

theorem colon_not_mem_toDigits (n : Nat) : ':' ∉ Nat.toDigits 10 n := by
  intro h
  rcases toDigitsCore_mem 10 (n + 1) n [] ':' h with h1 | ⟨m, hm⟩
  · exact absurd h1 (List.not_mem_nil ':')
  · exact digitChar_ne_colon m hm.symm

theorem colon_not_mem_int_toString (z : Int) : ':' ∉ (toString z).data := by
  match z with
  | .ofNat n =>
      show ':' ∉ Nat.toDigits 10 n
      exact colon_not_mem_toDigits n
  | .negSucc n =>
      show ':' ∉ '-' :: Nat.toDigits 10 (n + 1)
      intro h
      rcases List.mem_cons.mp h with h1 | h2
      · exact absurd h1 (by decide)
      · exact colon_not_mem_toDigits (n + 1) h2

theorem append_colon_inj : ∀ (l1 l2 t1 t2 : List Char), ':' ∉ t1 → ':' ∉ t2 →
    l1 ++ ':' :: t1 = l2 ++ ':' :: t2 → l1 = l2 ∧ t1 = t2 := by
  intro l1
  induction l1 with
  | nil =>
    intro l2 t1 t2 h1 h2 he
    cases l2 with
    | nil => simp only [List.nil_append, List.cons.injEq] at he; exact ⟨rfl, he.2⟩
    | cons c l2' =>
      simp only [List.nil_append, List.cons_append, List.cons.injEq] at he
      exfalso; apply h1; rw [he.2]
      exact List.mem_append_right _ (List.mem_cons_self ':' t2)
  | cons a l1' ih =>
    intro l2 t1 t2 h1 h2 he
    cases l2 with
    | nil =>
      simp only [List.nil_append, List.cons_append, List.cons.injEq] at he
      exfalso; apply h2; rw [← he.2]
      exact List.mem_append_right _ (List.mem_cons_self ':' t1)
    | cons c l2' =>
      simp only [List.cons_append, List.cons.injEq] at he
      obtain ⟨hac, hrest⟩ := he
      obtain ⟨hl, ht⟩ := ih l2' t1 t2 h1 h2 hrest
      exact ⟨by rw [hac, hl], ht⟩

theorem cacheKey_model_eq {m1 m2 : String} {h1 h2 : Int}
    (he : cacheKey m1 h1 = cacheKey m2 h2) : m1 = m2 := by
  have hd : m1.data ++ ':' :: (toString h1).data
      = m2.data ++ ':' :: (toString h2).data := by
    have hc := congrArg String.data he
    simpa [cacheKey, String.data_append] using hc
  have hsplit := append_colon_inj m1.data m2.data (toString h1).data
    (toString h2).data (colon_not_mem_int_toString h1)
    (colon_not_mem_int_toString h2) hd
  exact String.ext hsplit.1

theorem check_model_timeout_cache (st : MMState) (now : Nat) (u : Bool)
    (t : Nat) : (check_model_timeout st now u t).responseCache
      = st.responseCache := by
  unfold check_model_timeout
  split
  · rfl
  · split <;> rfl

theorem load_model_cache (st : MMState) (mid : String) (o : LoadOutcome)
    (ft fm : Nat) :
    (load_model st mid o ft fm).1.responseCache = st.responseCache := by
  unfold load_model unload_model _load_model_with_optimizations
  cases o <;> split <;> simp <;> split <;> rfl

theorem reapAndLoadPhase_cache (st : MMState) (now : Nat) (u : Bool)
    (t : Nat) (dm : String) (o : LoadOutcome) (ft fm : Nat) :
    (reapAndLoadPhase st now u t dm o ft fm).1.responseCache
      = st.responseCache := by
  unfold reapAndLoadPhase
  dsimp only []
  split
  · rw [load_model_cache, check_model_timeout_cache]
  · rw [check_model_timeout_cache]

theorem improvedStreamLoop_cons (cap : Int) (c : String)
    (rest : List String) (acc : String) :
    improvedStreamLoop cap (c :: rest) acc =
      if stopHitStr (acc ++ c) then [c]
      else if ((acc ++ c).length : Int) > cap * 4 then [c]
      else c :: improvedStreamLoop cap rest (acc ++ c) := by
  conv_lhs => simp only [improvedStreamLoop]
  by_cases h : stopHitStr (acc ++ c) = true
  · rw [if_pos h, if_pos h]
  · rw [if_neg h, if_neg h, if_neg h]
    by_cases h2 : ((acc ++ c).length : Int) > cap * 4
    · rw [if_pos h2, if_pos h2]
    · rw [if_neg h2, if_neg h2]

theorem improvedStreamLoop_take (cap : Int) :
    ∀ (inner : List String) (acc : String),
      ∃ k, improvedStreamLoop cap inner acc = inner.take k := by
  intro inner
  induction inner with
  | nil => exact fun _ => ⟨0, rfl⟩
  | cons c rest ih =>
    intro acc
    rw [improvedStreamLoop_cons]
    by_cases h : stopHitStr (acc ++ c) = true
    · exact ⟨1, by rw [if_pos h, List.take_succ_cons, List.take_zero]⟩
    · rw [if_neg h]
      by_cases h2 : ((acc ++ c).length : Int) > cap * 4
      · exact ⟨1, by rw [if_pos h2, List.take_succ_cons, List.take_zero]⟩
      · rw [if_neg h2]
        obtain ⟨k, hk⟩ := ih (acc ++ c)
        exact ⟨k + 1, by rw [hk, List.take_succ_cons]⟩

theorem improvedStreamLoop_stop_len (cap : Int) :
    ∀ (inner : List String) (acc : String) (i : Nat),
      stopHitStr (acc ++ joinAll (inner.take (i + 1))) = true →
      (improvedStreamLoop cap inner acc).length ≤ i + 1 := by
  intro inner
  induction inner with
  | nil =>
    intro acc i _
    simp [improvedStreamLoop]
  | cons c rest ih =>
    intro acc i h
    rw [improvedStreamLoop_cons]
    by_cases hstop : stopHitStr (acc ++ c) = true
    · rw [if_pos hstop]
      exact Nat.succ_le_succ (Nat.zero_le i)
    · rw [if_neg hstop]
      by_cases hlen : ((acc ++ c).length : Int) > cap * 4
      · rw [if_pos hlen]
        exact Nat.succ_le_succ (Nat.zero_le i)
      · rw [if_neg hlen]
        cases i with
        | zero =>
          exfalso
          have h0 : stopHitStr (acc ++ c) = true := by
            simpa [joinAll, String.append_empty] using h
          exact hstop h0
        | succ j =>
          have h1 : stopHitStr ((acc ++ c) ++ joinAll (rest.take (j + 1)))
              = true := by
            simpa [joinAll, String.append_assoc] using h
          have hrec := ih (acc ++ c) j h1
          simpa only [List.length_cons] using Nat.succ_le_succ hrec

/-! ## Claim C1 — fallback on load failure -/

/-- C1 counterexample: on a fresh manager, loading "m" where the
tokenizer loads but the model load raises surfaces the raw load error
with no fallback attempt — the only recorded load event is the attempt
of "m" itself — and leaves the session partially loaded: the new
tokenizer handle is set while the model handle is absent. This refutes
both the "attempts exactly one fallback load" and the "never left in a
partially-loaded state" parts of the claim. -/
theorem c1_load_failure_counterexample :
    (load_model (initState 0) "m" .modelFail 7 8).2.1 = .error .loadErr ∧
    (load_model (initState 0) "m" .modelFail 7 8).2.2
      = [.attempted "m"] ∧
    (load_model (initState 0) "m" .modelFail 7 8).1.tokenizer = some 7 ∧
    (load_model (initState 0) "m" .modelFail 7 8).1.model = none :=
  ⟨rfl, rfl, rfl, rfl⟩

/-- C1 (amended): if loading a requested model_id raises, `load_model`
surfaces the underlying load error to the caller after exactly one
underlying load attempt — of model_id itself; no registry fallback is
ever attempted — and when the failure hits after the tokenizer loaded,
the session is left partially loaded: the fresh tokenizer handle set,
the model handle absent. -/
theorem c1_load_failure_no_fallback (st : MMState) (mid : String)
    (o : LoadOutcome) (ft fm : Nat) (hl : st.loading = false)
    (ho : o ≠ .ok) :
    (load_model st mid o ft fm).2.1 = .error .loadErr ∧
    ((load_model st mid o ft fm).2.2 = [.attempted mid] ∨
      (load_model st mid o ft fm).2.2
        = [.unloadedPrev st.currentModel, .attempted mid]) ∧
    (o = .modelFail → (load_model st mid o ft fm).1.tokenizer = some ft ∧
      (load_model st mid o ft fm).1.model = none) := by
  have hml : st.model = none ∨ st.model.isSome = true := by
    cases hm : st.model
    · exact Or.inl rfl
    · exact Or.inr rfl
  cases o with
  | ok => exact absurd rfl ho
  | tokFail =>
    rcases hml with hm | hm <;>
      simp [load_model, unload_model, _load_model_with_optimizations, hl, hm]
  | modelFail =>
    rcases hml with hm | hm <;>
      simp [load_model, unload_model, _load_model_with_optimizations, hl, hm]

/-- Witness for `c1_load_failure_no_fallback` at a fresh manager,
model_id "m", a model-load failure and fresh handles 7 and 8. -/
theorem c1_load_failure_no_fallback_witness :
    (initState 0).loading = false ∧ LoadOutcome.modelFail ≠ .ok ∧
    ((load_model (initState 0) "m" .modelFail 7 8).2.1
        = .error .loadErr ∧
      ((load_model (initState 0) "m" .modelFail 7 8).2.2
          = [.attempted "m"] ∨
        (load_model (initState 0) "m" .modelFail 7 8).2.2
          = [.unloadedPrev (initState 0).currentModel, .attempted "m"]) ∧
      (LoadOutcome.modelFail = .modelFail →
        (load_model (initState 0) "m" .modelFail 7 8).1.tokenizer
            = some 7 ∧
        (load_model (initState 0) "m" .modelFail 7 8).1.model = none)) :=
  ⟨rfl, by decide,
    c1_load_failure_no_fallback (initState 0) "m" .modelFail 7 8 rfl
      (by decide)⟩

/-! ## Claim C2 — buffered OOM recovery -/

/-- C2 counterexample: a first decode with a 100-token budget that hits
CUDA-OOM is retried with a budget of min(100, 256) = 100 — the very
same budget, not the halved 50 the claim asserts. -/
theorem c2_oom_retry_not_halved :
    (decodeWithOOMRetry 100 .oom .ok).attempts = [100, 100] ∧
    (decodeWithOOMRetry 100 .oom .ok).attempts ≠ [100, 100 / 2] :=
  ⟨rfl, by decide⟩

/-- C2 (amended): during buffered generation an out-of-memory error
triggers exactly one local recovery — the accelerator cache is
cleared, the max-new-tokens budget is lowered to min(budget, 256), and
generation is retried once, a failure of the retry itself surfacing as
a generation-failure error; a non-OOM exception is not retried and
surfaces as a generation-failure error (HTTP 500) to the caller. -/
theorem c2_oom_recovery_amended (b : Int) :
    decodeWithOOMRetry b .ok .ok = ⟨[b], false, .ok ()⟩ ∧
    decodeWithOOMRetry b .err .ok = ⟨[b], false, .error .runtimeOther⟩ ∧
    decodeWithOOMRetry b .oom .ok = ⟨[b, min b 256], true, .ok ()⟩ ∧
    decodeWithOOMRetry b .oom .oom
      = ⟨[b, min b 256], true, .error .cudaOOM⟩ ∧
    decodeWithOOMRetry b .oom .err
      = ⟨[b, min b 256], true, .error .runtimeOther⟩ ∧
    (generate loadedSessionM 5 false 10 "d" .ok 1 1 "sys" "hi"
        (fun _ => 0) gpBase noArgs .err .ok "raw").result
      = .error (.http500 "Generation failed") ∧
    (generate loadedSessionM 5 false 10 "d" .ok 1 1 "sys" "hi"
        (fun _ => 0) gpBase noArgs .oom .oom "raw").result
      = .error (.http500 "Generation failed") :=
  ⟨rfl, rfl, rfl, rfl, rfl, rfl, rfl⟩

/-! ## Claim C3 — streaming stop markers -/

/-- C3 counterexample: with the model emitting the single chunk
"Hello</s>JUNK", the consumer receives that chunk whole — the stream
does terminate, but the emitted output contains the stop marker and the
text after it, refuting "no yielded chunk content at or after the first
stop marker reaches the consumer". -/
theorem c3_stop_marker_reaches_consumer :
    async_stream_generate [⟨false, "Hello</s>JUNK"⟩] 50
      = ["Hello</s>JUNK"] ∧
    strContains
      (joinAll (async_stream_generate [⟨false, "Hello</s>JUNK"⟩] 50))
      "</s>" = true :=
  ⟨rfl, rfl⟩

/-- C3 (amended): the stream is always a finite sequence, and once a
configured stop marker appears in the accumulated text — first doing so
within chunk i (0-indexed) — the consumer-visible stream ends no later
than chunk i+1. The emitted chunks are an unmodified initial segment of
the inner generator's chunks: the chunk containing the marker is
forwarded whole (content at and after the marker included), truncation
applying only to an internal accumulator that never reaches the
consumer. -/
theorem c3_stream_stop_amended (cap : Int) (inner : List String)
    (i : Nat) (h : stopHitStr (accumText inner i) = true) :
    (∃ k, improvedStreamLoop cap inner "" = inner.take k) ∧
    (improvedStreamLoop cap inner "").length ≤ i + 1 := by
  refine ⟨improvedStreamLoop_take cap inner "", ?_⟩
  apply improvedStreamLoop_stop_len
  simpa [accumText, String.empty_append] using h

/-- Witness for `c3_stream_stop_amended` on the single-chunk stream
["x</s>"] with the marker appearing in chunk 0. -/
theorem c3_stream_stop_amended_witness :
    stopHitStr (accumText ["x</s>"] 0) = true ∧
    ((∃ k, improvedStreamLoop 512 ["x</s>"] ""
        = (["x</s>"] : List String).take k) ∧
      (improvedStreamLoop 512 ["x</s>"] "").length ≤ 0 + 1) :=
  ⟨by decide, c3_stream_stop_amended 512 ["x</s>"] 0 (by decide)⟩

/-! ## Claim C4 — paired model/tokenizer handles -/

/-- C4: the inactivity-timeout check breaks the paired-handles
invariant. On a session holding both handles, with unload-on-idle
enabled and the idle time beyond the timeout, `check_model_timeout`
clears the model handle and the current model id but leaves the
tokenizer handle populated — exactly one of the two handles set,
which the claim says can never happen. -/
theorem c4_timeout_unpairs_handles :
    (check_model_timeout pairedSession 100 true 10).model = none ∧
    (check_model_timeout pairedSession 100 true 10).tokenizer
      = some 2 ∧
    (check_model_timeout pairedSession 100 true 10).currentModel
      = none :=
  ⟨rfl, rfl, rfl⟩

/-! ## Claim C5 — get_model_info totality -/

/-- C5: `get_model_info` raises instead of returning a snapshot. After
a successful `load_model` on a fresh manager, `current_model` is set
but the `model_config` instance attribute was never assigned
(`__init__` does not create it; neither does `load_model`), so line 801
raises `AttributeError` — and the `device` attribute read on line 823
is never assigned anywhere in the class. The claim that `get_model_info`
never raises fails on every session whose model was loaded through
`load_model`. -/
theorem c5_get_model_info_raises_after_load :
    (load_model (initState 0) "qwen-0.5b" .ok 1 2).2.1 = .ok () ∧
    get_model_info (load_model (initState 0) "qwen-0.5b" .ok 1 2).1
      500 "cpu" = .error (.attrErr "model_config") ∧
    get_model_info (initState 0) 500 "cpu" = .ok .noModelLoaded :=
  ⟨rfl, rfl, rfl⟩

/-! ## Claim C6 — load exclusivity and the loading flag -/

/-- C6: a `load_model` call arriving while `loading` is true fails
immediately with the busy error and leaves the session exactly
unchanged — no load events, no side effects; and any `load_model` call
accepted on a non-busy session ends with the loading flag false,
whatever the outcome of the underlying load (the `finally` path). -/
theorem c6_load_busy_and_flag_reset (st stb : MMState) (mid : String)
    (o : LoadOutcome) (ft fm : Nat) (hb : stb.loading = true)
    (hn : st.loading = false) :
    load_model stb mid o ft fm = (stb, .error .loadBusy, []) ∧
    (load_model st mid o ft fm).1.loading = false := by
  constructor
  · simp [load_model, hb]
  · have hml : st.model = none ∨ st.model.isSome = true := by
      cases st.model
      · exact Or.inl rfl
      · exact Or.inr rfl
    rcases hml with hm | hm <;> cases o <;>
      simp [load_model, unload_model, _load_model_with_optimizations,
        hn, hm]

/-- Witness for `c6_load_busy_and_flag_reset`: a busy session rejects
the call unchanged, and a fresh session's load ends not-loading. -/
theorem c6_load_busy_and_flag_reset_witness :
    busySession.loading = true ∧ (initState 0).loading = false ∧
    (load_model busySession "m" .ok 1 2
        = (busySession, .error .loadBusy, []) ∧
      (load_model (initState 0) "m" .ok 1 2).1.loading = false) :=
  ⟨rfl, rfl,
    c6_load_busy_and_flag_reset (initState 0) busySession "m" .ok 1 2
      rfl rfl⟩

/-! ## Claim C9 — reload is never a no-op -/

/-- C9: calling `load_model M` while any model is loaded — including M
itself — first unloads the current session and then performs a full
reload: for every load outcome the recorded events are exactly the
unload of the previous model followed by the single load attempt of M,
and on success the session holds the freshly loaded handles of this
call (not the previous ones) with current_model = M. -/
theorem c9_reload_always_full (st : MMState) (M : String) (h ft fm : Nat)
    (hm : st.model = some h) (hl : st.loading = false) :
    (load_model st M .tokFail ft fm).2.2
      = [.unloadedPrev st.currentModel, .attempted M] ∧
    (load_model st M .modelFail ft fm).2.2
      = [.unloadedPrev st.currentModel, .attempted M] ∧
    (load_model st M .ok ft fm).2.2
      = [.unloadedPrev st.currentModel, .attempted M] ∧
    (load_model st M .ok ft fm).2.1 = .ok () ∧
    (load_model st M .ok ft fm).1.model = some fm ∧
    (load_model st M .ok ft fm).1.tokenizer = some ft ∧
    (load_model st M .ok ft fm).1.currentModel = some M := by
  have hs : st.model.isSome = true := by rw [hm]; rfl
  refine ⟨?_, ?_, ?_, ?_, ?_, ?_, ?_⟩ <;>
    simp [load_model, unload_model, _load_model_with_optimizations,
      hl, hs]

/-- Witness for `c9_reload_always_full`: reloading "m" on the session
already holding "m" with handles (1, 2) ends with the fresh handles
(8, 7) — a full reload, not a no-op. -/
theorem c9_reload_always_full_witness :
    pairedSession.model = some 1 ∧ pairedSession.loading = false ∧
    ((load_model pairedSession "m" .tokFail 7 8).2.2
        = [.unloadedPrev pairedSession.currentModel, .attempted "m"] ∧
      (load_model pairedSession "m" .modelFail 7 8).2.2
        = [.unloadedPrev pairedSession.currentModel, .attempted "m"] ∧
      (load_model pairedSession "m" .ok 7 8).2.2
        = [.unloadedPrev pairedSession.currentModel, .attempted "m"] ∧
      (load_model pairedSession "m" .ok 7 8).2.1 = .ok () ∧
      (load_model pairedSession "m" .ok 7 8).1.model = some 8 ∧
      (load_model pairedSession "m" .ok 7 8).1.tokenizer = some 7 ∧
      (load_model pairedSession "m" .ok 7 8).1.currentModel
        = some "m") :=
  ⟨rfl, rfl, c9_reload_always_full pairedSession "m" 1 7 8 rfl rfl⟩

/-! ## Claim C10 — max_new_tokens precedence -/

/-- C10: when both max_length and max_new_tokens are supplied,
max_new_tokens overwrites the max_length local (line 388), so the
resolved max_length — the value handed to the decode call as its
max-new-tokens budget — is the coerced max_new_tokens whatever the
supplied max_length held; even when max_new_tokens fails coercion the
supplied max_length is ignored (the registry default is kept). The
last conjunct exhibits the decode budget of a full generate run with
max_length=5 and max_new_tokens=77: the single decode attempt uses 77. -/
theorem c10_max_new_tokens_overwrites (gp : GenParams) (a : GenArgs)
    (ml mnt : SuppliedInt) (i : Int) (hc : mnt.coer = some i)
    (hml : a.max_length = some ml) (hmnt : a.max_new_tokens = some mnt) :
    (resolveGenParams gp a).max_length = i ∧
    (resolveGenParams gp
        { a with max_new_tokens := some ⟨true, none⟩ }).max_length
      = gp.max_length ∧
    (generate loadedSessionM 5 false 10 "d" .ok 1 1 "sys" "hi"
        (fun _ => 0) gpBase argsBothLen .ok .ok "raw").decodeAttempts
      = [77] := by
  refine ⟨?_, ?_, rfl⟩
  · simp [resolveGenParams, hmnt, hc, overrideInt]
  · simp [resolveGenParams, hml, overrideInt, truthyOptI]

/-- Witness for `c10_max_new_tokens_overwrites` at the baseline
registry parameters and the (5, 77) argument pair. -/
theorem c10_max_new_tokens_overwrites_witness :
    (⟨true, some 77⟩ : SuppliedInt).coer = some 77 ∧
    argsBothLen.max_length = some ⟨true, some 5⟩ ∧
    argsBothLen.max_new_tokens = some ⟨true, some 77⟩ ∧
    ((resolveGenParams gpBase argsBothLen).max_length = 77 ∧
      (resolveGenParams gpBase
          { argsBothLen with max_new_tokens := some ⟨true, none⟩ }).max_length
        = gpBase.max_length ∧
      (generate loadedSessionM 5 false 10 "d" .ok 1 1 "sys" "hi"
          (fun _ => 0) gpBase argsBothLen .ok .ok "raw").decodeAttempts
        = [77]) :=
  ⟨rfl, rfl, rfl,
    c10_max_new_tokens_overwrites gpBase argsBothLen ⟨true, some 5⟩
      ⟨true, some 77⟩ 77 rfl rfl rfl⟩

/-! ## Claim C8 — parameter override precedence -/

/-- C8 counterexample: with a registry entry carrying temperature 0.9
(the code itself reads `gen_params.get("temperature", ...)`, so
registry entries carry this key) and no explicit parameter supplied,
the resolved temperature is the hardcoded cap 0.7, not the registry
default 0.9 — the registry default does not take precedence, it is
clamped away. -/
theorem c8_registry_default_clamped :
    (resolveGenParams
      (get_model_generation_params ⟨none, some (9/10), none, none, none⟩
        ⟨2048, 1, 19/20⟩) noArgs).temperature = 7/10 ∧
    ((7 : Rat)/10) ≠ 9/10 := by
  constructor
  · simp only [resolveGenParams, get_model_generation_params, noArgs,
      truthyOptR, truthyOptI, overrideRat, Option.getD_some]
    norm_num
  · norm_num

/-- C8 (amended): explicitly supplied, coercible parameters always
override both registry and global defaults. When a parameter is not
supplied, max_length resolves to min(registry-or-global, 512),
temperature to min(registry-or-global, 0.7), top_p to the
registry-or-global value, repetition_penalty to the registry value,
while top_k is forced to 40 regardless of any registry default. A
supplied value that fails coercion is discarded (logged) and the raw
registry-or-global default is retained — the clamps are skipped for a
truthy bad value — and resolution never surfaces an error: a full
generate call with a bad temperature still returns the fresh response. -/
theorem c8_override_precedence_amended (e : RegistryEntry)
    (g : GlobalDefaults) (gp : GenParams) (a : GenArgs)
    (vI : SuppliedInt) (vR : SuppliedRat) (i : Int) (q : Rat)
    (hgp : gp = get_model_generation_params e g) (hi : vI.coer = some i)
    (hq : vR.coer = some q) :
    (resolveGenParams gp { a with max_length := some vI, max_new_tokens := none }).max_length = i ∧
    (resolveGenParams gp { a with max_new_tokens := some vI }).max_length = i ∧
    (resolveGenParams gp { a with temperature := some vR }).temperature = q ∧
    (resolveGenParams gp { a with top_p := some vR }).top_p = q ∧
    (resolveGenParams gp { a with top_k := some vI }).top_k = some i ∧
    (resolveGenParams gp { a with repetition_penalty := some vR }).repetition_penalty = some q ∧
    (resolveGenParams gp noArgs).max_length
      = min (e.max_length.getD g.defaultMaxLength) 512 ∧
    (resolveGenParams gp noArgs).temperature
      = min (e.temperature.getD g.defaultTemperature) (7/10) ∧
    (resolveGenParams gp noArgs).top_p = e.top_p.getD g.defaultTopP ∧
    (resolveGenParams gp noArgs).top_k = some 40 ∧
    (resolveGenParams gp noArgs).repetition_penalty
      = e.repetition_penalty ∧
    (resolveGenParams gp argsBadTemp).temperature
      = e.temperature.getD g.defaultTemperature ∧
    (resolveGenParams gp { noArgs with max_length := some ⟨true, none⟩ }).max_length
      = e.max_length.getD g.defaultMaxLength ∧
    (generate loadedSessionM 5 false 10 "d" .ok 1 1 "sys" "hi"
        (fun _ => 0) gpBase argsBadTemp .ok .ok "raw").result
      = .ok (cleanResponse "raw" "sys" "hi") := by
  subst hgp
  refine ⟨?_, ?_, ?_, ?_, ?_, ?_, ?_, ?_, ?_, ?_, ?_, ?_, ?_, rfl⟩ <;>
    simp [resolveGenParams, get_model_generation_params, overrideInt,
      overrideRat, overrideOptInt, overrideOptRat, truthyOptI,
      truthyOptR, noArgs, argsBadTemp, hi, hq]

/-- Witness for `c8_override_precedence_amended` at a fully populated
registry entry, explicit values 33 and 3/2, and no further arguments. -/
theorem c8_override_precedence_amended_witness :
    (get_model_generation_params
        ⟨some 100, some (9/10), some (1/2), some 80, some (11/10)⟩
        ⟨2048, 1, 19/20⟩
      = get_model_generation_params
        ⟨some 100, some (9/10), some (1/2), some 80, some (11/10)⟩
        ⟨2048, 1, 19/20⟩) ∧
    (⟨true, some 33⟩ : SuppliedInt).coer = some 33 ∧
    (⟨true, some (3/2)⟩ : SuppliedRat).coer = some (3/2) ∧
    ((resolveGenParams
        (get_model_generation_params
          ⟨some 100, some (9/10), some (1/2), some 80, some (11/10)⟩
          ⟨2048, 1, 19/20⟩)
        { noArgs with max_length := some ⟨true, some 33⟩, max_new_tokens := none }).max_length
      = 33) := by
  refine ⟨rfl, rfl, rfl, ?_⟩
  exact (c8_override_precedence_amended
    ⟨some 100, some (9/10), some (1/2), some 80, some (11/10)⟩
    ⟨2048, 1, 19/20⟩ _ noArgs ⟨true, some 33⟩ ⟨true, some (3/2)⟩ 33
    (3/2) rfl rfl rfl).1

/-! ## Claim C7 — response-cache guard and isolation -/

/-- C7 counterexample: a non-streaming request that explicitly supplies
temperature = 0.0 — an explicit generation parameter — still consults
the response cache and returns the cached text, because the guard on
line 364 tests Python truthiness (`not any([...])`) rather than
presence, and 0.0 is falsy. -/
theorem c7_cache_hit_despite_explicit_param :
    argsZeroTemp.temperature = some ⟨false, some 0⟩ ∧
    (generate seededCacheSession 5 false 10 "d" .ok 1 1 "sys" "hi"
        (fun _ => 0) gpBase argsZeroTemp .ok .ok "raw").result
      = .ok "CACHED" :=
  ⟨rfl, rfl⟩

/-- C7 (amended): the response cache is consulted and populated only
for non-streaming requests in which every supplied generation
parameter is Python-falsy — an explicitly supplied zero still uses the
cache — with key the string model_id:hash(formatted_prompt). For any
request failing that guard, generate leaves the stored cache unchanged
and its result can only be the fresh decoded response (or the
streaming generator), never a cached entry; and cache keys never
collide across distinct model ids, so a response cached under model A
is never returned for a request served under model B. -/
theorem c7_cache_guard_and_isolation (st : MMState) (now : Nat)
    (u : Bool) (mt : Nat) (dm : String) (lo : LoadOutcome) (ft fm : Nat)
    (instr prompt : String) (pyHash : String → Int) (gp0 : GenParams)
    (a : GenArgs) (fr rt : DecodeOutcome) (raw : String)
    (m1 m2 : String) (h1 h2 : Int)
    (he : cacheEligible a = false) (hm : m1 ≠ m2) :
    (generate st now u mt dm lo ft fm instr prompt pyHash gp0 a fr rt
        raw).state.responseCache = st.responseCache ∧
    resultFreshOnly (generate st now u mt dm lo ft fm instr prompt
        pyHash gp0 a fr rt raw).result raw instr prompt ∧
    cacheKey m1 h1 ≠ cacheKey m2 h2 := by
  refine ⟨?_, ?_, fun hk => hm (cacheKey_model_eq hk)⟩ <;>
  · unfold generate
    rcases hrl : reapAndLoadPhase st now u mt dm lo ft fm with ⟨st1, res⟩
    have hst1 : st1.responseCache = st.responseCache := by
      have hc := reapAndLoadPhase_cache st now u mt dm lo ft fm
      rw [hrl] at hc
      exact hc
    cases res with
    | error e => simp [resultFreshOnly, hst1]
    | ok v =>
      cases ha : a.stream <;> cases fr <;> cases rt <;>
        simp [he, ha, hst1, resultFreshOnly, decodeWithOOMRetry]

/-- Witness for `c7_cache_guard_and_isolation`: explicit truthy
arguments (max_length=5, max_new_tokens=77) fail the guard on a loaded
session, and the keys of models "a" and "b" under hash 0 differ. -/
theorem c7_cache_guard_and_isolation_witness :
    cacheEligible argsBothLen = false ∧ "a" ≠ "b" ∧
    ((generate loadedSessionM 5 false 10 "d" .ok 1 1 "sys" "hi"
        (fun _ => 0) gpBase argsBothLen .ok .ok
        "raw").state.responseCache = loadedSessionM.responseCache ∧
      resultFreshOnly (generate loadedSessionM 5 false 10 "d" .ok 1 1
        "sys" "hi" (fun _ => 0) gpBase argsBothLen .ok .ok "raw").result
        "raw" "sys" "hi" ∧
      cacheKey "a" 0 ≠ cacheKey "b" 0) :=
  ⟨by decide, by decide,
    c7_cache_guard_and_isolation loadedSessionM 5 false 10 "d" .ok 1 1
      "sys" "hi" (fun _ => 0) gpBase argsBothLen .ok .ok "raw" "a" "b"
      0 0 (by decide) (by decide)⟩
